import Mathlib

/-!
Shallow embedding of the UPSgui module (src/UPSmodules/UPSgui.py) of the
apsupsd repository.  The embedding covers the GuiComp display registry
(add, refresh_gui_data, all_refresh_gui_data) and the GuiProps color
support (the fixed palette, color_name_to_hex, color_name_to_rgba,
hex_to_rgba, and the css list built by set_style when no css string is
supplied).  Mutation of Gtk labels is modelled by an explicit effect
trace; the external data source (UpsList) is modelled as a finite table.
-/

namespace UPSgui

/-- Error taxonomy of the module, named as in the specification:
refresh on an unregistered device id (a Python KeyError on the registry
dict), a malformed hex color string, and an unknown palette color name
(both Python ValueError in the source). -/
inductive UpsGuiError where
  | unknownDevice
  | invalidColorFormat
  | unknownColor
deriving DecidableEq

/-- A dynamic value held by the external data source.  The refresh
policy distinguishes strings (compared against the sentinel strings)
from other values such as integers; both are rendered via str(). -/
inductive Value where
  | vStr (s : String)
  | vInt (z : Int)
deriving DecidableEq

/-- Association-list lookup, mirroring Python dict key lookup. -/
def lookupA {α : Type} : List (String × α) → String → Option α
  | [], _ => none
  | (k, v) :: rest, key => if k = key then some v else lookupA rest key

/-- Association-list update, mirroring Python dict update: an existing
key is overwritten in place, a new key is appended at the end
(insertion order). -/
def updAssoc {α : Type} : List (String × α) → String → α → List (String × α)
  | [], key, v => [(key, v)]
  | (k, w) :: rest, key, v =>
    if k = key then (key, v) :: rest else (k, w) :: updAssoc rest key v

/-- The external data source (self.data_dict, an UpsModule.UpsList):
a table of device ids, each with a table of field values.  Modelled
from the spec: the UpsList class is not under src/; the spec describes
it as enumerating device ids (uuids) and supporting a point lookup
get(deviceId, fieldName) returning a value or absence. -/
structure DataSource where
  entries : List (String × List (String × Value))
deriving DecidableEq

/-- Device-id enumeration of the data source (UpsList.uuids()). -/
def DataSource.uuids (ds : DataSource) : List String :=
  ds.entries.map Prod.fst

/-- Point lookup self.data_dict[uuid][item_name]; a KeyError at either
level is absence. -/
def DataSource.get (ds : DataSource) (uuid name : String) : Option Value :=
  match lookupA ds.entries uuid with
  | none => none
  | some fields => lookupA fields name

/-- One registered display binding, the inner dict
\x7b'label': label, 'box': box, 'box_name': box_name, 'data': data\x7d
of GuiComp.gc.  The Gtk label and box handles are opaque; labels are
identified by a numeric id so that set_text effects can be traced. -/
structure Binding where
  label : Nat
  box : Option Nat
  boxName : Option String
  data : String
deriving DecidableEq

/-- The GuiComp object: the nested registry self.gc keyed by uuid then
item name, the external data source self.data_dict, and the display
width self.max_width. -/
structure GuiComp where
  gc : List (String × List (String × Binding))
  dataDict : DataSource
  maxWidth : Nat
deriving DecidableEq

/-- Observable side effects of a refresh pass: a data-source read for a
field, or a set_text call on a label handle made while processing a
field. -/
inductive Eff where
  | read (uuid name : String)
  | setText (name : String) (label : Nat) (text : String)
deriving DecidableEq

/-- The sentinel no-data values of refresh_gui_data, line 123 of
UPSgui.py: the set literal \x7b'-1', None, '', 'No data', 'None'\x7d
restricted to its string members; absence (None) is handled
separately. -/
def sentinelStrings : List String := ["-1", "", "No data", "None"]

/-- The identity/status-class fields of refresh_gui_data, line 124:
the set literal \x7b'mib_ups_name', 'mib_system_status'\x7d. -/
def identityFields : List String := ["mib_ups_name", "mib_system_status"]

/-- Whether a present candidate value is one of the sentinel no-data
values: only a string equal to one of the sentinel strings matches; an
integer (for example -1) never does. -/
def isSentinelVal : Value → Bool
  | .vStr s => sentinelStrings.contains s
  | .vInt _ => false

/-- Whether a candidate, absence included, triggers the placeholder
substitution of line 123. -/
def isNoData : Option Value → Bool
  | none => true
  | some v => isSentinelVal v

/-- Python str() of a candidate value: a string is itself, an integer
is its decimal representation. -/
def valueText : Value → String
  | .vStr s => s
  | .vInt z => toString z

/-- The placeholder substituted for a no-data candidate:
'Unresponsive' for the identity/status-class fields, '---'
otherwise. -/
def placeholderFor (name : String) : String :=
  if identityFields.contains name then "Unresponsive" else "---"

/-- Python string slicing s[:n]: the first n characters. -/
def strTrunc (n : Nat) (s : String) : String :=
  String.mk (s.data.take n)

/-- A binding with its cached data value replaced (the in-place dict
write of line 127). -/
def withData (b : Binding) (s : String) : Binding :=
  { b with data := s }

/-- The resolved text of one field before truncation: an absent or
sentinel candidate becomes the placeholder for that field, any other
candidate its str() representation. -/
def resolvedText (name : String) (v : Option Value) : String :=
  match v with
  | none => placeholderFor name
  | some val => if isSentinelVal val then placeholderFor name else valueText val

/-- The final rendered string of one field: the resolved text truncated
to max_width characters (lines 119-125 of UPSgui.py). -/
def refreshField (maxW : Nat) (name : String) (v : Option Value) : String :=
  strTrunc maxW (resolvedText name v)

/-- The body of the refresh loop over the field table of one device
(lines 115-127): a static-classified field is skipped whole when
skip_static is set; otherwise the candidate is read, resolved,
truncated, pushed to the label and cached in the binding.  The static
field list models UpsComm.all_mib_cmd_names[MIB_group.static], an
external constant, and is a parameter. -/
def refreshFields (ds : DataSource) (maxW : Nat) (static : List String)
    (uuid : String) (skipStatic : Bool) :
    List (String × Binding) → List (String × Binding) × List Eff
  | [] => ([], [])
  | (name, b) :: rest =>
    let r := refreshFields ds maxW static uuid skipStatic rest
    if skipStatic && static.contains name then
      ((name, b) :: r.1, r.2)
    else
      let s := refreshField maxW name (ds.get uuid name)
      ((name, { b with data := s }) :: r.1,
        Eff.read uuid name :: Eff.setText name b.label s :: r.2)

/-- GuiComp.refresh_gui_data: the field table of the device is fetched
(self.gc[uuid]; an unregistered uuid raises, modelled as
unknownDevice with the state returned untouched and no effects), then
every field is refreshed in place. -/
def refresh_gui_data (static : List String) (g : GuiComp) (uuid : String)
    (skipStatic : Bool) : GuiComp × List Eff × Option UpsGuiError :=
  match lookupA g.gc uuid with
  | none => (g, [], some .unknownDevice)
  | some fields =>
    let r := refreshFields g.dataDict g.maxWidth static uuid skipStatic fields
    ({ g with gc := updAssoc g.gc uuid r.1 }, r.2, none)

/-- The loop of all_refresh_gui_data over a device-id list: refresh
each device in order; a raised error aborts the loop, keeping the
updates already made. -/
def all_refresh_go (static : List String) (skipStatic : Bool) :
    List String → GuiComp → GuiComp × List Eff × Option UpsGuiError
  | [], g => (g, [], none)
  | u :: rest, g =>
    let r := refresh_gui_data static g u skipStatic
    match r.2.2 with
    | some e => (r.1, r.2.1, some e)
    | none =>
      let r2 := all_refresh_go static skipStatic rest r.1
      (r2.1, r.2.1 ++ r2.2.1, r2.2.2)

/-- GuiComp.all_refresh_gui_data (lines 101-107): refresh_gui_data for
every device id enumerated by the external data source. -/
def all_refresh_gui_data (static : List String) (g : GuiComp)
    (skipStatic : Bool) : GuiComp × List Eff × Option UpsGuiError :=
  all_refresh_go static skipStatic g.dataDict.uuids g

/-- A freshly added binding: the cached data value starts at the
placeholder '---'. -/
def newBinding (label : Nat) (box : Option Nat) (boxName : Option String) :
    Binding :=
  { label := label, box := box, boxName := boxName, data := "---" }

/-- GuiComp.add (lines 87-99): register or overwrite one binding.  A
new uuid gets a fresh one-field table; an existing uuid has its field
table updated in place (dict.update semantics, last call wins). -/
def GuiComp.add (g : GuiComp) (uuid name : String) (label : Nat)
    (box : Option Nat) (boxName : Option String) : GuiComp :=
  match lookupA g.gc uuid with
  | none =>
    { g with gc := updAssoc g.gc uuid [(name, newBinding label box boxName)] }
  | some fields =>
    let fields2 := updAssoc fields name (newBinding label box boxName)
    { g with gc := updAssoc g.gc uuid fields2 }

/-- The field-name list registered for a device. -/
def fieldKeys (g : GuiComp) (uuid : String) : List String :=
  ((lookupA g.gc uuid).getD []).map Prod.fst

/-- The fixed color palette GuiProps._colors (lines 133-167 of
UPSgui.py), in source order. -/
def _colors : List (String × String) :=
  [("white", "#FFFFFF"),
   ("white_off", "#FCFCFC"),
   ("white_pp", "#F0E5D3"),
   ("cream", "#FFFDD1"),
   ("gray20", "#CCCCCC"),
   ("gray50", "#7F7F7F"),
   ("gray60", "#666666"),
   ("gray70", "#4D4D4D"),
   ("gray80", "#333333"),
   ("gray95", "#0D0D0D"),
   ("gray_dk", "#6A686E"),
   ("black", "#000000"),
   ("green", "#8EC3A7"),
   ("green_dk", "#6A907C"),
   ("teal", "#218C8D"),
   ("cyan", "#008B8B"),
   ("olive", "#6C9040"),
   ("red", "#B73743"),
   ("orange", "#E86850"),
   ("yellow", "#C9A100"),
   ("blue", "#587498"),
   ("purple", "#6264A7"),
   ("br_red", "#FF2D2D"),
   ("br_orange", "#FF6316"),
   ("br_blue", "#66CCFF"),
   ("br_pink", "#CC00FF"),
   ("br_green", "#99FF99"),
   ("br_yellow", "#FFFF66"),
   ("slate_lt", "#A0A0AA"),
   ("slate_md", "#80808d"),
   ("slate_dk", "#5D5D67"),
   ("slate_vdk", "#3A3A40")]

/-- Whether a character is a hexadecimal digit (0-9, a-f, A-F). -/
def isHexDigit (c : Char) : Bool :=
  c.isDigit || ('a' ≤ c && c ≤ 'f') || ('A' ≤ c && c ≤ 'F')

/-- Modelled from the spec: the regular expression
env.UT_CONST.PATTERNS['HEXRGB'] consumed by hex_to_rgba is defined in
the env module, which is not under src/.  Per the spec it accepts an
optional leading '#' followed by exactly 6 case-insensitive hexadecimal
digits ('#FFFFFF' and '000000' accepted, '#ZZZZZZ' and '#FFF'
rejected); re.fullmatch against it is this predicate. -/
def matchesHexRGB (s : String) : Bool :=
  match s.data with
  | [] => false
  | c :: rest =>
    if c = '#' then rest.length == 6 && rest.all isHexDigit
    else (c :: rest).length == 6 && (c :: rest).all isHexDigit

/-- Python str.lstrip('#'): drop every leading '#'. -/
def stripHash : List Char → List Char
  | [] => []
  | c :: rest => if c = '#' then stripHash rest else c :: rest

/-- Numeric value of a hexadecimal digit, as in Python int(x, 16). -/
def hexVal (c : Char) : Nat :=
  if c.isDigit then c.toNat - '0'.toNat
  else if 'a' ≤ c && c ≤ 'f' then c.toNat - 'a'.toNat + 10
  else if 'A' ≤ c && c ≤ 'F' then c.toNat - 'A'.toNat + 10
  else 0

/-- Value of a two-digit hexadecimal channel, int(value[i:i+2], 16). -/
def hexPair (c d : Char) : Nat :=
  16 * hexVal c + hexVal d

/-- GuiProps.hex_to_rgba (lines 194-211): reject input not matching the
HEXRGB pattern, strip leading '#', reject a stripped length other than
6, then split into three channels, divide each by 255.0 and append
alpha 1.  Rendered exactly in rationals. -/
def hex_to_rgba (value : String) : Except UpsGuiError (ℚ × ℚ × ℚ × ℚ) :=
  if !matchesHexRGB value then .error .invalidColorFormat
  else
    let stripped := stripHash value.data
    if stripped.length ≠ 6 then .error .invalidColorFormat
    else
      match stripped with
      | [c0, c1, c2, c3, c4, c5] =>
        .ok ((hexPair c0 c1 : ℚ) / 255, (hexPair c2 c3 : ℚ) / 255,
             (hexPair c4 c5 : ℚ) / 255, 1)
      | _ => .error .invalidColorFormat

/-- GuiProps.color_name_to_hex (lines 169-179): the name must be a
palette key; its hex string is returned. -/
def color_name_to_hex (value : String) : Except UpsGuiError String :=
  match lookupA _colors value with
  | none => .error .unknownColor
  | some h => .ok h

/-- GuiProps.color_name_to_rgba (lines 181-192): the name must be a
palette key; its hex string is converted via hex_to_rgba. -/
def color_name_to_rgba (value : String) :
    Except UpsGuiError (ℚ × ℚ × ℚ × ℚ) :=
  match lookupA _colors value with
  | none => .error .unknownColor
  | some h => hex_to_rgba h

/-- Direct palette access cls._colors[name] used by set_style; every
name used there is a palette key. -/
def colHex (name : String) : String :=
  (lookupA _colors name).getD ""

/-- A background style rule, the css template
"SEL \x7b background-image: image(HEX); \x7d". -/
def bgRule (sel hex : String) : String :=
  sel ++ " \x7b background-image: image(" ++ hex ++ "); \x7d"

/-- A label-color style rule, the css template
"SEL \x7b color: HEX; \x7d". -/
def fgRule (sel hex : String) : String :=
  sel ++ " \x7b color: " ++ hex ++ "; \x7d"

/-- A combined style rule, the css template
"SEL \x7b background-image: image(HEX1); color: HEX2; \x7d". -/
def bgFgRule (sel hex1 hex2 : String) : String :=
  sel ++ " \x7b background-image: image(" ++ hex1 ++ "); color: " ++
    hex2 ++ "; \x7d"

/-- The css_list built by GuiProps.set_style (lines 257-299): the
default rule list when no css string is given, otherwise the given
string as the single item. -/
def set_style_css_list (css_str : Option String) : List String :=
  match css_str with
  | some s => [s]
  | none =>
    [bgRule "grid" (colHex "gray80"),
     bgRule "#light_grid" (colHex "gray20"),
     bgRule "#dark_grid" (colHex "gray70"),
     bgRule "#dark_box" (colHex "slate_dk"),
     bgRule "#med_box" (colHex "slate_md"),
     bgRule "#light_box" (colHex "slate_lt"),
     bgRule "#head_box" (colHex "blue"),
     bgRule "#warn_box" (colHex "red"),
     bgRule "#button_box" (colHex "slate_dk"),
     bgRule "#out_load_box" (colHex "slate_md"),
     fgRule "#out_load_label" (colHex "white_off"),
     bgRule "#bat_cap_box" (colHex "slate_md"),
     fgRule "#bat_cap_label" (colHex "white_off"),
     bgRule "#sys_stat_box" (colHex "slate_md"),
     fgRule "#sys_stat_label" (colHex "white_off"),
     bgRule "#bat_stat_box" (colHex "slate_md"),
     fgRule "#bat_stat_label" (colHex "white_off"),
     bgRule "#message_box" (colHex "gray50"),
     fgRule "#message_label" (colHex "white_off"),
     fgRule "#warn_label" (colHex "white_pp"),
     fgRule "#white_label" (colHex "white_off"),
     fgRule "#black_label" (colHex "gray95"),
     bgFgRule "#ppm_combo" (colHex "green") (colHex "black"),
     bgFgRule "button" (colHex "slate_lt") (colHex "black"),
     bgFgRule "entry" (colHex "green") (colHex "gray95"),
     bgFgRule "entry:selected" (colHex "yellow") (colHex "white")]

/-- One style rule of the fixed region-to-color table of spec section
4.2: a region selector, an optional background palette color and an
optional label-text palette color. -/
structure SpecRule where
  selector : String
  bg : Option String
  fg : Option String
deriving DecidableEq

/-- Modelled from the spec: the fixed region-to-color table enumerated
in spec section 4.2, in its enumeration order, with named regions
rendered as id selectors ('#name') and the element regions grid,
button and entry bare, as the style document serialization uses
them. -/
def spec_style_table : List SpecRule :=
  [⟨"grid", some "gray80", none⟩,
   ⟨"#light_grid", some "gray20", none⟩,
   ⟨"#dark_grid", some "gray70", none⟩,
   ⟨"#dark_box", some "slate_dk", none⟩,
   ⟨"#med_box", some "slate_md", none⟩,
   ⟨"#light_box", some "slate_lt", none⟩,
   ⟨"#head_box", some "blue", none⟩,
   ⟨"#warn_box", some "red", none⟩,
   ⟨"#button_box", some "slate_dk", none⟩,
   ⟨"#out_load_box", some "slate_md", none⟩,
   ⟨"#out_load_label", none, some "white_off"⟩,
   ⟨"#bat_cap_box", some "slate_md", none⟩,
   ⟨"#bat_cap_label", none, some "white_off"⟩,
   ⟨"#sys_stat_box", some "slate_md", none⟩,
   ⟨"#sys_stat_label", none, some "white_off"⟩,
   ⟨"#bat_stat_box", some "slate_md", none⟩,
   ⟨"#bat_stat_label", none, some "white_off"⟩,
   ⟨"#message_box", some "gray50", none⟩,
   ⟨"#message_label", none, some "white_off"⟩,
   ⟨"#warn_label", none, some "white_pp"⟩,
   ⟨"#white_label", none, some "white_off"⟩,
   ⟨"#black_label", none, some "gray95"⟩,
   ⟨"#ppm_combo", some "green", some "black"⟩,
   ⟨"button", some "slate_lt", some "black"⟩,
   ⟨"entry", some "green", some "gray95"⟩]

/-- Serialization of one spec table rule in the css format the source
uses for each rule shape. -/
def serializeRule (r : SpecRule) : String :=
  match r.bg, r.fg with
  | some b, none => bgRule r.selector (colHex b)
  | none, some f => fgRule r.selector (colHex f)
  | some b, some f => bgFgRule r.selector (colHex b) (colHex f)
  | none, none => r.selector

/-- The style document the spec table describes: one serialized rule
per table region. -/
def spec_style_doc : List String :=
  spec_style_table.map serializeRule

/-- The extra rule the source emits beyond the spec table: the
entry:selected rule (yellow background, white text), flagged in the
source as a format that does not work. -/
def entry_selected_rule : String :=
  bgFgRule "entry:selected" (colHex "yellow") (colHex "white")

deriving instance DecidableEq for Except

/-- Boolean check that a conversion result is a successful rgba tuple
with every channel in [0, 1] and alpha exactly 1. -/
def rgbaOkCheck (e : Except UpsGuiError (ℚ × ℚ × ℚ × ℚ)) : Bool :=
  match e with
  | .ok (r, g, b, a) =>
    decide (0 ≤ r) && decide (r ≤ 1) && decide (0 ≤ g) && decide (g ≤ 1) &&
      decide (0 ≤ b) && decide (b ≤ 1) && decide (a = 1)
  | .error _ => false

/-- A concrete data source used to exercise the theorems: one device
with a sentinel name, a normal reading, an integer reading and a long
reading. -/
def wData : DataSource :=
  ⟨[("ups1",
     [("mib_ups_name", Value.vStr "None"),
      ("mib_load", Value.vStr "42"),
      ("mib_temp", Value.vInt (-1)),
      ("mib_note", Value.vStr "a long measured value")])]⟩

/-- Concrete registered bindings of the example device. -/
def wFields : List (String × Binding) :=
  [("mib_ups_name", ⟨1, none, none, "old1"⟩),
   ("mib_model", ⟨2, none, none, "old2"⟩),
   ("mib_load", ⟨3, none, none, "old3"⟩),
   ("mib_temp", ⟨4, none, none, "old4"⟩),
   ("mib_note", ⟨5, none, none, "old5"⟩)]

/-- A concrete registry with one registered device and width 8. -/
def wGui : GuiComp := ⟨[("ups1", wFields)], wData, 8⟩

/-- A concrete registry with no registered device but a non-empty data
source. -/
def cexGui : GuiComp := ⟨[], wData, 8⟩

end UPSgui

namespace UPSgui

theorem lookupA_updAssoc_self {α : Type} (l : List (String × α)) (k : String)
    (v : α) : lookupA (updAssoc l k v) k = some v := by
  induction l with
  | nil => simp [updAssoc, lookupA]
  | cons p rest ih =>
    obtain ⟨a, w⟩ := p
    by_cases h : a = k
    · simp [updAssoc, h, lookupA]
    · simp [updAssoc, h, lookupA, ih]

theorem lookupA_updAssoc_ne {α : Type} (l : List (String × α)) (k k2 : String)
    (v : α) (h : k2 ≠ k) : lookupA (updAssoc l k v) k2 = lookupA l k2 := by
  induction l with
  | nil => simp [updAssoc, lookupA, Ne.symm h]
  | cons p rest ih =>
    obtain ⟨a, w⟩ := p
    by_cases ha : a = k
    · subst ha
      simp [updAssoc, lookupA, Ne.symm h]
    · simp [updAssoc, ha, lookupA, ih]

theorem lookupA_mem {α : Type} (l : List (String × α)) (k : String) (v : α)
    (h : lookupA l k = some v) : (k, v) ∈ l := by
  induction l with
  | nil => simp [lookupA] at h
  | cons p rest ih =>
    obtain ⟨a, w⟩ := p
    by_cases ha : a = k
    · subst ha
      simp [lookupA] at h
      simp [h]
    · simp [lookupA, ha] at h
      exact List.mem_cons_of_mem _ (ih h)

theorem lookupA_isSome_iff {α : Type} (l : List (String × α)) (k : String) :
    (lookupA l k).isSome = true ↔ k ∈ l.map Prod.fst := by
  induction l with
  | nil => simp [lookupA]
  | cons p rest ih =>
    obtain ⟨a, w⟩ := p
    by_cases ha : a = k
    · subst ha
      simp [lookupA]
    · simp [lookupA, ha, ih, Ne.symm ha]

theorem lookupA_eq_none_of_not_mem {α : Type} (l : List (String × α))
    (k : String) (h : k ∉ l.map Prod.fst) : lookupA l k = none := by
  cases hq : lookupA l k with
  | none => rfl
  | some v =>
    exact absurd ((lookupA_isSome_iff l k).mp (by rw [hq]; rfl)) h

theorem updAssoc_keys {α : Type} (l : List (String × α)) (k : String) (v : α) :
    (updAssoc l k v).map Prod.fst =
      if k ∈ l.map Prod.fst then l.map Prod.fst else l.map Prod.fst ++ [k] := by
  induction l with
  | nil => simp [updAssoc]
  | cons p rest ih =>
    obtain ⟨a, w⟩ := p
    by_cases ha : a = k
    · subst ha
      simp [updAssoc]
    · by_cases hm : k ∈ rest.map Prod.fst
      · simp [updAssoc, ha, ih, hm, Ne.symm ha]
      · simp [updAssoc, ha, ih, hm, Ne.symm ha]

/-- C3: refresh on an unregistered device id fails with
UnknownDeviceError, returns the registry state completely unchanged and
performs no label update: no partial update occurs. -/
theorem refresh_unknown_device (static : List String) (g : GuiComp)
    (uuid : String) (skipStatic : Bool)
    (h : lookupA g.gc uuid = none) :
    refresh_gui_data static g uuid skipStatic =
      (g, [], some UpsGuiError.unknownDevice) := by
  unfold refresh_gui_data
  rw [h]

/-- C3 witness: the concrete registry wGui has no device "nope"; refresh
on it errors with the state untouched. -/
theorem refresh_unknown_device_witness :
    lookupA wGui.gc "nope" = none ∧
    refresh_gui_data [] wGui "nope" false =
      (wGui, [], some UpsGuiError.unknownDevice) :=
  ⟨by decide, refresh_unknown_device [] wGui "nope" false (by decide)⟩

theorem contains_true_iff (l : List String) (a : String) :
    l.contains a = true ↔ a ∈ l := by
  simp

theorem refreshFields_keys (ds : DataSource) (maxW : Nat)
    (static : List String) (uuid : String) (sk : Bool)
    (fs : List (String × Binding)) :
    ((refreshFields ds maxW static uuid sk fs).1).map Prod.fst =
      fs.map Prod.fst := by
  induction fs with
  | nil => rfl
  | cons p rest ih =>
    obtain ⟨name, b⟩ := p
    by_cases hc : (sk && static.contains name) = true
    · simp only [refreshFields]
      rw [if_pos hc]
      simp [ih]
    · simp only [refreshFields]
      rw [if_neg hc]
      simp [ih]

theorem refreshFields_lookup (ds : DataSource) (maxW : Nat)
    (static : List String) (uuid : String) (sk : Bool)
    (fs : List (String × Binding)) (name : String) (b : Binding)
    (hb : lookupA fs name = some b)
    (hns : sk = false ∨ static.contains name = false) :
    lookupA (refreshFields ds maxW static uuid sk fs).1 name =
      some { b with data := refreshField maxW name (ds.get uuid name) } ∧
    Eff.read uuid name ∈ (refreshFields ds maxW static uuid sk fs).2 ∧
    Eff.setText name b.label (refreshField maxW name (ds.get uuid name)) ∈
      (refreshFields ds maxW static uuid sk fs).2 := by
  induction fs with
  | nil => simp [lookupA] at hb
  | cons p rest ih =>
    obtain ⟨k, b2⟩ := p
    by_cases hk : k = name
    · subst hk
      have hb2 : b2 = b := by simpa [lookupA] using hb
      subst hb2
      have hcond : (sk && static.contains k) = false := by
        rcases hns with h | h
        · rw [h, Bool.false_and]
        · rw [h, Bool.and_false]
      simp only [refreshFields]
      rw [if_neg (by rw [hcond]; exact Bool.false_ne_true)]
      simp [lookupA]
    · have hb2 : lookupA rest name = some b := by
        simpa [lookupA, hk] using hb
      have hrec := ih hb2
      by_cases hc : (sk && static.contains k) = true
      · simp only [refreshFields]
        rw [if_pos hc]
        simpa [lookupA, hk] using hrec
      · simp only [refreshFields]
        rw [if_neg hc]
        simp only [lookupA, List.mem_cons]
        rw [if_neg hk]
        exact ⟨hrec.1, Or.inr (Or.inr hrec.2.1), Or.inr (Or.inr hrec.2.2)⟩

theorem refreshFields_skip_lookup (ds : DataSource) (maxW : Nat)
    (static : List String) (uuid : String)
    (fs : List (String × Binding)) (name : String) (b : Binding)
    (hb : lookupA fs name = some b)
    (hstat : static.contains name = true) :
    lookupA (refreshFields ds maxW static uuid true fs).1 name = some b := by
  induction fs with
  | nil => simp [lookupA] at hb
  | cons p rest ih =>
    obtain ⟨k, b2⟩ := p
    by_cases hk : k = name
    · subst hk
      have hb2 : b2 = b := by simpa [lookupA] using hb
      subst hb2
      simp only [refreshFields]
      rw [if_pos (by simp only [Bool.true_and]; exact hstat)]
      simp [lookupA]
    · have hb2 : lookupA rest name = some b := by
        simpa [lookupA, hk] using hb
      by_cases hc : (true && static.contains k) = true
      · simp only [refreshFields]
        rw [if_pos hc]
        simp only [lookupA]
        rw [if_neg hk]
        exact ih hb2
      · simp only [refreshFields]
        rw [if_neg hc]
        simp only [lookupA]
        rw [if_neg hk]
        exact ih hb2

theorem refreshFields_skip_no_eff (ds : DataSource) (maxW : Nat)
    (static : List String) (uuid : String)
    (fs : List (String × Binding)) (name : String)
    (hstat : static.contains name = true) :
    ∀ e ∈ (refreshFields ds maxW static uuid true fs).2,
      e ≠ Eff.read uuid name ∧ ∀ lb t, e ≠ Eff.setText name lb t := by
  induction fs with
  | nil => intro e he; simp [refreshFields] at he
  | cons p rest ih =>
    obtain ⟨k, b2⟩ := p
    by_cases hc : (true && static.contains k) = true
    · intro e he
      simp only [refreshFields] at he
      rw [if_pos hc] at he
      exact ih e he
    · have hk : k ≠ name := by
        intro e
        subst e
        exact hc (by simp only [Bool.true_and]; exact hstat)
      intro e he
      simp only [refreshFields] at he
      rw [if_neg hc] at he
      simp only [List.mem_cons] at he
      rcases he with he1 | he2 | he3
      · subst he1
        simp [hk]
      · subst he2
        simp [hk]
      · exact ih e he3

theorem refresh_gui_data_reg (static : List String) (g : GuiComp)
    (uuid : String) (sk : Bool) (fields : List (String × Binding))
    (hf : lookupA g.gc uuid = some fields) :
    refresh_gui_data static g uuid sk =
      (⟨updAssoc g.gc uuid
          (refreshFields g.dataDict g.maxWidth static uuid sk fields).1,
         g.dataDict, g.maxWidth⟩,
       (refreshFields g.dataDict g.maxWidth static uuid sk fields).2,
       none) := by
  unfold refresh_gui_data
  rw [hf]

theorem refresh_none_eq (static : List String) (g : GuiComp) (uuid : String)
    (sk : Bool) (h : lookupA g.gc uuid = none) :
    refresh_gui_data static g uuid sk =
      (g, [], some UpsGuiError.unknownDevice) := by
  unfold refresh_gui_data
  rw [h]

theorem refresh_preserves_isSome (static : List String) (g : GuiComp)
    (uuid : String) (sk : Bool) (u2 : String) :
    (lookupA (refresh_gui_data static g uuid sk).1.gc u2).isSome =
      (lookupA g.gc u2).isSome := by
  cases hf : lookupA g.gc uuid with
  | none => simp [refresh_none_eq static g uuid sk hf]
  | some fields =>
    rw [refresh_gui_data_reg static g uuid sk fields hf]
    by_cases hu : u2 = uuid
    · subst hu
      simp [lookupA_updAssoc_self, hf]
    · simp [lookupA_updAssoc_ne _ _ _ _ hu]

theorem refresh_preserves_other (static : List String) (g : GuiComp)
    (uuid : String) (sk : Bool) (u2 : String) (h : u2 ≠ uuid) :
    lookupA (refresh_gui_data static g uuid sk).1.gc u2 = lookupA g.gc u2 := by
  cases hf : lookupA g.gc uuid with
  | none => simp [refresh_none_eq static g uuid sk hf]
  | some fields =>
    rw [refresh_gui_data_reg static g uuid sk fields hf]
    simpa using lookupA_updAssoc_ne g.gc uuid u2 _ h

theorem refresh_dataDict_eq (static : List String) (g : GuiComp)
    (uuid : String) (sk : Bool) :
    (refresh_gui_data static g uuid sk).1.dataDict = g.dataDict := by
  cases hf : lookupA g.gc uuid with
  | none => simp [refresh_none_eq static g uuid sk hf]
  | some fields =>
    rw [refresh_gui_data_reg static g uuid sk fields hf]

theorem refresh_err_none (static : List String) (g : GuiComp)
    (uuid : String) (sk : Bool)
    (h : (lookupA g.gc uuid).isSome = true) :
    (refresh_gui_data static g uuid sk).2.2 = none := by
  cases hf : lookupA g.gc uuid with
  | none => rw [hf] at h; simp at h
  | some fields =>
    rw [refresh_gui_data_reg static g uuid sk fields hf]

theorem resolvedText_of_noData (name : String) (v : Option Value)
    (h : isNoData v = true) : resolvedText name v = placeholderFor name := by
  cases v with
  | none => rfl
  | some val =>
    have hv : isSentinelVal val = true := by simpa [isNoData] using h
    simp [resolvedText, hv]

theorem placeholderFor_eq (name : String) :
    placeholderFor name =
      (if name = "mib_ups_name" ∨ name = "mib_system_status"
       then "Unresponsive" else "---") := by
  unfold placeholderFor
  by_cases h : name = "mib_ups_name" ∨ name = "mib_system_status"
  · rw [if_pos (by simpa [identityFields] using h), if_pos h]
  · rw [if_neg (by simpa [identityFields] using h), if_neg h]

/-- C1: for a registered (deviceId, fieldName) not skipped as static,
refresh resolves an absent or sentinel candidate ("-1", "", "No data",
"None", or true absence) to the placeholder "Unresponsive" for the
identity/status-class fields mib_ups_name and mib_system_status and
"---" for every other field; the label text (the set_text effect) and
the cached data value both receive that placeholder after truncation to
max_width. -/
theorem refresh_sentinel_placeholder (static : List String) (g : GuiComp)
    (uuid name : String) (skipStatic : Bool)
    (fields : List (String × Binding)) (b : Binding)
    (hf : lookupA g.gc uuid = some fields)
    (hb : lookupA fields name = some b)
    (hns : skipStatic = false ∨ static.contains name = false)
    (hnd : isNoData (g.dataDict.get uuid name) = true) :
    (refresh_gui_data static g uuid skipStatic).2.2 = none ∧
    lookupA ((lookupA (refresh_gui_data static g uuid skipStatic).1.gc
        uuid).getD []) name =
      some (withData b (strTrunc g.maxWidth
        (if name = "mib_ups_name" ∨ name = "mib_system_status"
         then "Unresponsive" else "---"))) ∧
    Eff.setText name b.label (strTrunc g.maxWidth
        (if name = "mib_ups_name" ∨ name = "mib_system_status"
         then "Unresponsive" else "---")) ∈
      (refresh_gui_data static g uuid skipStatic).2.1 := by
  have hres : refreshField g.maxWidth name (g.dataDict.get uuid name) =
      strTrunc g.maxWidth
        (if name = "mib_ups_name" ∨ name = "mib_system_status"
         then "Unresponsive" else "---") := by
    unfold refreshField
    rw [resolvedText_of_noData name _ hnd, placeholderFor_eq]
  have hrec := refreshFields_lookup g.dataDict g.maxWidth static uuid
    skipStatic fields name b hb hns
  have h1 : (refresh_gui_data static g uuid skipStatic).1.gc =
      updAssoc g.gc uuid
        (refreshFields g.dataDict g.maxWidth static uuid skipStatic
          fields).1 := by
    rw [refresh_gui_data_reg static g uuid skipStatic fields hf]
  have h2 : (refresh_gui_data static g uuid skipStatic).2.1 =
      (refreshFields g.dataDict g.maxWidth static uuid skipStatic
        fields).2 := by
    rw [refresh_gui_data_reg static g uuid skipStatic fields hf]
  have h3 : (refresh_gui_data static g uuid skipStatic).2.2 = none := by
    rw [refresh_gui_data_reg static g uuid skipStatic fields hf]
  refine ⟨h3, ?_, ?_⟩
  · rw [h1, lookupA_updAssoc_self, Option.getD_some, ← hres]
    exact hrec.1
  · rw [h2, ← hres]
    exact hrec.2.2

/-- C1 witness: in the concrete registry, the field mib_ups_name of
device ups1 holds the sentinel string "None" and is refreshed to the
truncated placeholder "Unresponsive". -/
theorem refresh_sentinel_placeholder_witness :
    lookupA wGui.gc "ups1" = some wFields ∧
    lookupA wFields "mib_ups_name" =
      some ⟨1, none, none, "old1"⟩ ∧
    isNoData (wGui.dataDict.get "ups1" "mib_ups_name") = true ∧
    ((refresh_gui_data [] wGui "ups1" false).2.2 = none ∧
     lookupA ((lookupA (refresh_gui_data [] wGui "ups1" false).1.gc
         "ups1").getD []) "mib_ups_name" =
       some (withData ⟨1, none, none, "old1"⟩ (strTrunc wGui.maxWidth
                (if "mib_ups_name" = "mib_ups_name" ∨
                    "mib_ups_name" = "mib_system_status"
                 then "Unresponsive" else "---"))) ∧
     Eff.setText "mib_ups_name" 1 (strTrunc wGui.maxWidth
         (if "mib_ups_name" = "mib_ups_name" ∨
             "mib_ups_name" = "mib_system_status"
          then "Unresponsive" else "---")) ∈
       (refresh_gui_data [] wGui "ups1" false).2.1) :=
  ⟨by decide, by decide, by decide,
    refresh_sentinel_placeholder [] wGui "ups1" "mib_ups_name" false
      wFields ⟨1, none, none, "old1"⟩ (by decide) (by decide)
      (Or.inl rfl) (by decide)⟩

/-- C2: for a registered field processed by refresh, the rendered
string cached in the binding is the resolved text truncated to
max_width: its character list is the take of the resolved text, its
length never exceeds max_width, and a resolved text longer than
max_width is cut to exactly max_width characters.  The same g.maxWidth
applies to every field of the instance. -/
theorem refresh_truncates_uniformly (static : List String) (g : GuiComp)
    (uuid name : String) (skipStatic : Bool)
    (fields : List (String × Binding)) (b : Binding)
    (hf : lookupA g.gc uuid = some fields)
    (hb : lookupA fields name = some b)
    (hns : skipStatic = false ∨ static.contains name = false) :
    (refresh_gui_data static g uuid skipStatic).2.2 = none ∧
    lookupA ((lookupA (refresh_gui_data static g uuid skipStatic).1.gc
        uuid).getD []) name =
      some (withData b
        (strTrunc g.maxWidth (resolvedText name (g.dataDict.get uuid name)))) ∧
    (strTrunc g.maxWidth (resolvedText name (g.dataDict.get uuid name))).data =
      (resolvedText name (g.dataDict.get uuid name)).data.take g.maxWidth ∧
    (strTrunc g.maxWidth
        (resolvedText name (g.dataDict.get uuid name))).length ≤ g.maxWidth ∧
    (g.maxWidth < (resolvedText name (g.dataDict.get uuid name)).length →
      (strTrunc g.maxWidth
        (resolvedText name (g.dataDict.get uuid name))).length = g.maxWidth)
    := by
  have hrec := refreshFields_lookup g.dataDict g.maxWidth static uuid
    skipStatic fields name b hb hns
  have h1 : (refresh_gui_data static g uuid skipStatic).1.gc =
      updAssoc g.gc uuid
        (refreshFields g.dataDict g.maxWidth static uuid skipStatic
          fields).1 := by
    rw [refresh_gui_data_reg static g uuid skipStatic fields hf]
  have h3 : (refresh_gui_data static g uuid skipStatic).2.2 = none := by
    rw [refresh_gui_data_reg static g uuid skipStatic fields hf]
  refine ⟨h3, ?_, rfl, ?_, ?_⟩
  · rw [h1, lookupA_updAssoc_self, Option.getD_some]
    exact hrec.1
  · show ((resolvedText name
        (g.dataDict.get uuid name)).data.take g.maxWidth).length ≤ g.maxWidth
    rw [List.length_take]
    omega
  · intro hlen
    have hlen2 : g.maxWidth <
        (resolvedText name (g.dataDict.get uuid name)).data.length := hlen
    show ((resolvedText name
        (g.dataDict.get uuid name)).data.take g.maxWidth).length = g.maxWidth
    rw [List.length_take]
    omega

/-- C2 witness: the 21-character reading of field mib_note of device
ups1 is truncated to the 8-character prefix. -/
theorem refresh_truncates_uniformly_witness :
    lookupA wGui.gc "ups1" = some wFields ∧
    lookupA wFields "mib_note" = some ⟨5, none, none, "old5"⟩ ∧
    8 < (resolvedText "mib_note" (wGui.dataDict.get "ups1" "mib_note")).length ∧
    ((refresh_gui_data [] wGui "ups1" false).2.2 = none ∧
     lookupA ((lookupA (refresh_gui_data [] wGui "ups1" false).1.gc
         "ups1").getD []) "mib_note" =
       some (withData ⟨5, none, none, "old5"⟩ (strTrunc wGui.maxWidth
                (resolvedText "mib_note"
                  (wGui.dataDict.get "ups1" "mib_note")))) ∧
     (strTrunc wGui.maxWidth
         (resolvedText "mib_note" (wGui.dataDict.get "ups1" "mib_note"))).data =
       (resolvedText "mib_note"
         (wGui.dataDict.get "ups1" "mib_note")).data.take wGui.maxWidth ∧
     (strTrunc wGui.maxWidth
         (resolvedText "mib_note"
           (wGui.dataDict.get "ups1" "mib_note"))).length ≤ wGui.maxWidth ∧
     (wGui.maxWidth <
         (resolvedText "mib_note"
           (wGui.dataDict.get "ups1" "mib_note")).length →
       (strTrunc wGui.maxWidth
         (resolvedText "mib_note"
           (wGui.dataDict.get "ups1" "mib_note"))).length = wGui.maxWidth)) :=
  ⟨by decide, by decide, by decide,
    refresh_truncates_uniformly [] wGui "ups1" "mib_note" false
      wFields ⟨5, none, none, "old5"⟩ (by decide) (by decide) (Or.inl rfl)⟩

/-- C5: with skipStatic true, a static-classified field is left
completely untouched: the refresh succeeds, the cached binding
(lastValue included) is exactly what it was, and the effect trace holds
no data-source read and no set_text call for that field. -/
theorem refresh_skip_static_untouched (static : List String) (g : GuiComp)
    (uuid name : String) (fields : List (String × Binding)) (b : Binding)
    (hf : lookupA g.gc uuid = some fields)
    (hb : lookupA fields name = some b)
    (hstat : static.contains name = true) :
    (refresh_gui_data static g uuid true).2.2 = none ∧
    lookupA ((lookupA (refresh_gui_data static g uuid true).1.gc
        uuid).getD []) name = some b ∧
    (∀ e ∈ (refresh_gui_data static g uuid true).2.1,
      e ≠ Eff.read uuid name ∧ ∀ lb t, e ≠ Eff.setText name lb t) := by
  have h1 : (refresh_gui_data static g uuid true).1.gc =
      updAssoc g.gc uuid
        (refreshFields g.dataDict g.maxWidth static uuid true fields).1 := by
    rw [refresh_gui_data_reg static g uuid true fields hf]
  have h2 : (refresh_gui_data static g uuid true).2.1 =
      (refreshFields g.dataDict g.maxWidth static uuid true fields).2 := by
    rw [refresh_gui_data_reg static g uuid true fields hf]
  have h3 : (refresh_gui_data static g uuid true).2.2 = none := by
    rw [refresh_gui_data_reg static g uuid true fields hf]
  refine ⟨h3, ?_, ?_⟩
  · rw [h1, lookupA_updAssoc_self, Option.getD_some]
    exact refreshFields_skip_lookup g.dataDict g.maxWidth static uuid
      fields name b hb hstat
  · intro e he
    rw [h2] at he
    exact refreshFields_skip_no_eff g.dataDict g.maxWidth static uuid
      fields name hstat e he

/-- C5 witness: with mib_ups_name classified static, refresh with
skipStatic leaves its binding (cached value "old1") untouched and emits
no read and no set_text for it. -/
theorem refresh_skip_static_untouched_witness :
    lookupA wGui.gc "ups1" = some wFields ∧
    lookupA wFields "mib_ups_name" = some ⟨1, none, none, "old1"⟩ ∧
    (["mib_ups_name"] : List String).contains "mib_ups_name" = true ∧
    ((refresh_gui_data ["mib_ups_name"] wGui "ups1" true).2.2 = none ∧
     lookupA ((lookupA (refresh_gui_data ["mib_ups_name"] wGui "ups1"
         true).1.gc "ups1").getD []) "mib_ups_name" =
       some ⟨1, none, none, "old1"⟩ ∧
     (∀ e ∈ (refresh_gui_data ["mib_ups_name"] wGui "ups1" true).2.1,
       e ≠ Eff.read "ups1" "mib_ups_name" ∧
       ∀ lb t, e ≠ Eff.setText "mib_ups_name" lb t)) :=
  ⟨by decide, by decide, by decide,
    refresh_skip_static_untouched ["mib_ups_name"] wGui "ups1"
      "mib_ups_name" wFields ⟨1, none, none, "old1"⟩ (by decide) (by decide)
      (by decide)⟩

/-- C10: the placeholder decision compares the raw candidate against
the sentinel set before any textual conversion: a present candidate
that is not a sentinel string, in particular any integer such as -1
whose str() form "-1" would match a sentinel, is never replaced; it is
rendered as its textual representation truncated to max_width. -/
theorem refresh_non_sentinel_raw (static : List String) (g : GuiComp)
    (uuid name : String) (skipStatic : Bool)
    (fields : List (String × Binding)) (b : Binding) (v : Value)
    (hf : lookupA g.gc uuid = some fields)
    (hb : lookupA fields name = some b)
    (hns : skipStatic = false ∨ static.contains name = false)
    (hv : g.dataDict.get uuid name = some v)
    (hraw : isSentinelVal v = false) :
    (refresh_gui_data static g uuid skipStatic).2.2 = none ∧
    lookupA ((lookupA (refresh_gui_data static g uuid skipStatic).1.gc
        uuid).getD []) name =
      some (withData b (strTrunc g.maxWidth (valueText v))) ∧
    Eff.setText name b.label (strTrunc g.maxWidth (valueText v)) ∈
      (refresh_gui_data static g uuid skipStatic).2.1 ∧
    (∀ z : Int, isSentinelVal (Value.vInt z) = false) := by
  have hres : refreshField g.maxWidth name (g.dataDict.get uuid name) =
      strTrunc g.maxWidth (valueText v) := by
    rw [hv]
    simp [refreshField, resolvedText, hraw]
  have hrec := refreshFields_lookup g.dataDict g.maxWidth static uuid
    skipStatic fields name b hb hns
  have h1 : (refresh_gui_data static g uuid skipStatic).1.gc =
      updAssoc g.gc uuid
        (refreshFields g.dataDict g.maxWidth static uuid skipStatic
          fields).1 := by
    rw [refresh_gui_data_reg static g uuid skipStatic fields hf]
  have h2 : (refresh_gui_data static g uuid skipStatic).2.1 =
      (refreshFields g.dataDict g.maxWidth static uuid skipStatic
        fields).2 := by
    rw [refresh_gui_data_reg static g uuid skipStatic fields hf]
  have h3 : (refresh_gui_data static g uuid skipStatic).2.2 = none := by
    rw [refresh_gui_data_reg static g uuid skipStatic fields hf]
  refine ⟨h3, ?_, ?_, fun z => rfl⟩
  · rw [h1, lookupA_updAssoc_self, Option.getD_some, ← hres]
    exact hrec.1
  · rw [h2, ← hres]
    exact hrec.2.2

/-- C10 witness: the integer reading -1 of field mib_temp is not
treated as a sentinel and is rendered as "-1", not as a placeholder. -/
theorem refresh_non_sentinel_raw_witness :
    lookupA wGui.gc "ups1" = some wFields ∧
    wGui.dataDict.get "ups1" "mib_temp" = some (Value.vInt (-1)) ∧
    isSentinelVal (Value.vInt (-1)) = false ∧
    strTrunc wGui.maxWidth (valueText (Value.vInt (-1))) = "-1" ∧
    ((refresh_gui_data [] wGui "ups1" false).2.2 = none ∧
     lookupA ((lookupA (refresh_gui_data [] wGui "ups1" false).1.gc
         "ups1").getD []) "mib_temp" =
       some (withData ⟨4, none, none, "old4"⟩
              (strTrunc wGui.maxWidth (valueText (Value.vInt (-1))))) ∧
     Eff.setText "mib_temp" 4
         (strTrunc wGui.maxWidth (valueText (Value.vInt (-1)))) ∈
       (refresh_gui_data [] wGui "ups1" false).2.1 ∧
     (∀ z : Int, isSentinelVal (Value.vInt z) = false)) :=
  ⟨by decide, by decide, by decide, by decide,
    refresh_non_sentinel_raw [] wGui "ups1" "mib_temp" false
      wFields ⟨4, none, none, "old4"⟩ (Value.vInt (-1)) (by decide)
      (by decide) (Or.inl rfl) (by decide) (by decide)⟩

theorem all_go_err_none (static : List String) (sk : Bool)
    (us : List String) :
    ∀ g : GuiComp, (∀ u ∈ us, (lookupA g.gc u).isSome = true) →
      (all_refresh_go static sk us g).2.2 = none := by
  induction us with
  | nil => intro g h; rfl
  | cons u rest ih =>
    intro g h
    have h1 : (lookupA g.gc u).isSome = true := h u (by simp)
    have hr : (refresh_gui_data static g u sk).2.2 = none :=
      refresh_err_none static g u sk h1
    simp only [all_refresh_go]
    rw [hr]
    exact ih (refresh_gui_data static g u sk).1 (fun u2 hm => by
      rw [refresh_preserves_isSome]
      exact h u2 (List.mem_cons_of_mem _ hm))

theorem all_go_err_unknown (static : List String) (sk : Bool)
    (us : List String) :
    ∀ g : GuiComp, (∃ u ∈ us, lookupA g.gc u = none) →
      (all_refresh_go static sk us g).2.2 =
        some UpsGuiError.unknownDevice := by
  induction us with
  | nil => intro g h; simp at h
  | cons u rest ih =>
    intro g h
    cases hq : lookupA g.gc u with
    | none =>
      have hr : refresh_gui_data static g u sk =
          (g, [], some UpsGuiError.unknownDevice) :=
        refresh_none_eq static g u sk hq
      simp only [all_refresh_go]
      rw [hr]
    | some fields =>
      obtain ⟨u0, hm, hnone⟩ := h
      have hu0 : u0 ≠ u := by
        intro e
        subst e
        rw [hq] at hnone
        cases hnone
      have hm2 : u0 ∈ rest := by
        rcases List.mem_cons.mp hm with e | e
        · exact absurd e hu0
        · exact e
      have hr : (refresh_gui_data static g u sk).2.2 = none :=
        refresh_err_none static g u sk (by rw [hq]; rfl)
      simp only [all_refresh_go]
      rw [hr]
      apply ih
      refine ⟨u0, hm2, ?_⟩
      have hsome := refresh_preserves_isSome static g u sk u0
      rw [hnone] at hsome
      cases hl : lookupA (refresh_gui_data static g u sk).1.gc u0 with
      | none => rfl
      | some x => rw [hl] at hsome; simp at hsome

theorem all_go_other (static : List String) (sk : Bool) (us : List String) :
    ∀ (g : GuiComp) (u2 : String), u2 ∉ us →
      lookupA (all_refresh_go static sk us g).1.gc u2 = lookupA g.gc u2 := by
  induction us with
  | nil => intro g u2 h; rfl
  | cons u rest ih =>
    intro g u2 h
    have hne : u2 ≠ u := fun e => h (by rw [e]; exact List.mem_cons_self u rest)
    have hnr : u2 ∉ rest := fun hm => h (List.mem_cons_of_mem _ hm)
    cases hr : (refresh_gui_data static g u sk).2.2 with
    | some e =>
      simp only [all_refresh_go]
      rw [hr]
      exact refresh_preserves_other static g u sk u2 hne
    | none =>
      simp only [all_refresh_go]
      rw [hr]
      rw [show lookupA (all_refresh_go static sk rest
          (refresh_gui_data static g u sk).1).1.gc u2 =
          lookupA (refresh_gui_data static g u sk).1.gc u2 from
        ih (refresh_gui_data static g u sk).1 u2 hnr]
      exact refresh_preserves_other static g u sk u2 hne

/-- C4 counterexample: device ups1 is enumerated by the data source but
has no registered bindings; all_refresh_gui_data is not a silent no-op
on it — it fails with UnknownDeviceError instead of completing without
error. -/
theorem all_refresh_noop_claim_false :
    "ups1" ∈ cexGui.dataDict.uuids ∧
    lookupA cexGui.gc "ups1" = none ∧
    ¬ (all_refresh_gui_data [] cexGui false).2.2 = none ∧
    (all_refresh_gui_data [] cexGui false).2.2 =
      some UpsGuiError.unknownDevice := by
  refine ⟨?_, rfl, ?_, ?_⟩ <;> decide

/-- C4 amended: all_refresh_gui_data is driven by the device ids the
external data source enumerates, not by the registry keys.  When every
enumerated device has registered bindings the pass completes without
error; when some enumerated device has no registered bindings the pass
fails with UnknownDeviceError (the error of refresh propagates) rather
than being a no-op; devices not enumerated by the data source are never
modified. -/
theorem all_refresh_data_source_driven (static : List String) (g : GuiComp)
    (skipStatic : Bool) :
    ((∀ u ∈ g.dataDict.uuids, (lookupA g.gc u).isSome = true) →
      (all_refresh_gui_data static g skipStatic).2.2 = none) ∧
    ((∃ u ∈ g.dataDict.uuids, lookupA g.gc u = none) →
      (all_refresh_gui_data static g skipStatic).2.2 =
        some UpsGuiError.unknownDevice) ∧
    (∀ u2, u2 ∉ g.dataDict.uuids →
      lookupA (all_refresh_gui_data static g skipStatic).1.gc u2 =
        lookupA g.gc u2) :=
  ⟨fun h => all_go_err_none static skipStatic g.dataDict.uuids g h,
   fun h => all_go_err_unknown static skipStatic g.dataDict.uuids g h,
   fun u2 h => all_go_other static skipStatic g.dataDict.uuids g u2 h⟩

/-- C4 witness: every device the concrete data source enumerates is
registered in wGui, so the full pass completes without error; a device
the data source does not know keeps its registry entry untouched. -/
theorem all_refresh_data_source_driven_witness :
    (∀ u ∈ wGui.dataDict.uuids, (lookupA wGui.gc u).isSome = true) ∧
    (all_refresh_gui_data [] wGui false).2.2 = none ∧
    ("other" ∉ wGui.dataDict.uuids ∧
     lookupA (all_refresh_gui_data [] wGui false).1.gc "other" =
       lookupA wGui.gc "other") :=
  ⟨by decide,
   (all_refresh_data_source_driven [] wGui false).1 (by decide),
   by decide,
   (all_refresh_data_source_driven [] wGui false).2.2 "other" (by decide)⟩

/-- C6: add never fails (it is total), calling it again for the same
(deviceId, fieldName) overwrites the binding with the last call
arguments and resets the cached value to "---"; the field-name list of
the device is extended by the name exactly when it was absent (no
duplicate under a different identity), and all other fields and devices
are untouched. -/
theorem add_overwrite_spec (g : GuiComp) (uuid name : String) (label : Nat)
    (box : Option Nat) (boxName : Option String) :
    lookupA ((lookupA (g.add uuid name label box boxName).gc uuid).getD [])
        name = some (newBinding label box boxName) ∧
    (newBinding label box boxName).data = "---" ∧
    fieldKeys (g.add uuid name label box boxName) uuid =
      (if name ∈ fieldKeys g uuid then fieldKeys g uuid
       else fieldKeys g uuid ++ [name]) ∧
    (∀ n2, n2 ≠ name →
      lookupA ((lookupA (g.add uuid name label box boxName).gc uuid).getD [])
          n2 = lookupA ((lookupA g.gc uuid).getD []) n2) ∧
    (∀ u2, u2 ≠ uuid →
      lookupA (g.add uuid name label box boxName).gc u2 = lookupA g.gc u2) ∧
    ((fieldKeys g uuid).Nodup →
      (fieldKeys (g.add uuid name label box boxName) uuid).Nodup) := by
  cases hq : lookupA g.gc uuid with
  | none =>
    have hgc : (g.add uuid name label box boxName).gc =
        updAssoc g.gc uuid [(name, newBinding label box boxName)] := by
      unfold GuiComp.add
      rw [hq]
    have hk : fieldKeys g uuid = [] := by
      unfold fieldKeys
      rw [hq]
      rfl
    have hfk : fieldKeys (g.add uuid name label box boxName) uuid =
        [name] := by
      unfold fieldKeys
      rw [hgc, lookupA_updAssoc_self, Option.getD_some]
      rfl
    refine ⟨?_, rfl, ?_, ?_, ?_, ?_⟩
    · rw [hgc, lookupA_updAssoc_self, Option.getD_some]
      simp [lookupA]
    · rw [hfk, hk]
      simp
    · intro n2 hn
      rw [hgc, lookupA_updAssoc_self, Option.getD_some]
      simp [lookupA, Ne.symm hn]
    · intro u2 hu
      rw [hgc]
      exact lookupA_updAssoc_ne _ _ _ _ hu
    · intro hnd
      rw [hfk]
      simp
  | some fields =>
    have hgc : (g.add uuid name label box boxName).gc =
        updAssoc g.gc uuid
          (updAssoc fields name (newBinding label box boxName)) := by
      unfold GuiComp.add
      rw [hq]
    have hk : fieldKeys g uuid = fields.map Prod.fst := by
      unfold fieldKeys
      rw [hq]
      rfl
    have hfk : fieldKeys (g.add uuid name label box boxName) uuid =
        (updAssoc fields name (newBinding label box boxName)).map
          Prod.fst := by
      unfold fieldKeys
      rw [hgc, lookupA_updAssoc_self, Option.getD_some]
    refine ⟨?_, rfl, ?_, ?_, ?_, ?_⟩
    · rw [hgc, lookupA_updAssoc_self, Option.getD_some,
        lookupA_updAssoc_self]
    · rw [hfk, updAssoc_keys, hk]
    · intro n2 hn
      rw [hgc, lookupA_updAssoc_self, Option.getD_some, Option.getD_some]
      exact lookupA_updAssoc_ne _ _ _ _ hn
    · intro u2 hu
      rw [hgc]
      exact lookupA_updAssoc_ne _ _ _ _ hu
    · intro hnd
      rw [hk] at hnd
      rw [hfk, updAssoc_keys]
      by_cases hm : name ∈ fields.map Prod.fst
      · rw [if_pos hm]
        exact hnd
      · rw [if_neg hm]
        simp [List.nodup_append, hnd, hm]

/-- C6 witness: re-adding the already registered field mib_load of
ups1 with new arguments overwrites it, resets the cached value to "---"
and leaves the field-name list without a duplicate. -/
theorem add_overwrite_spec_witness :
    (fieldKeys wGui "ups1").Nodup ∧
    lookupA ((lookupA (wGui.add "ups1" "mib_load" 9 none none).gc
        "ups1").getD []) "mib_load" = some (newBinding 9 none none) ∧
    (newBinding 9 none none).data = "---" ∧
    fieldKeys (wGui.add "ups1" "mib_load" 9 none none) "ups1" =
      (if "mib_load" ∈ fieldKeys wGui "ups1" then fieldKeys wGui "ups1"
       else fieldKeys wGui "ups1" ++ ["mib_load"]) ∧
    (fieldKeys (wGui.add "ups1" "mib_load" 9 none none) "ups1").Nodup :=
  ⟨by decide,
   (add_overwrite_spec wGui "ups1" "mib_load" 9 none none).1,
   (add_overwrite_spec wGui "ups1" "mib_load" 9 none none).2.1,
   (add_overwrite_spec wGui "ups1" "mib_load" 9 none none).2.2.1,
   (add_overwrite_spec wGui "ups1" "mib_load" 9 none none).2.2.2.2.2
     (by decide)⟩

theorem list_len6 {α : Type} (l : List α) (h : l.length = 6) :
    ∃ a b c d e f, l = [a, b, c, d, e, f] := by
  rcases l with _ | ⟨a, l⟩
  · simp only [List.length_nil] at h; omega
  rcases l with _ | ⟨b, l⟩
  · simp only [List.length_cons, List.length_nil] at h; omega
  rcases l with _ | ⟨c, l⟩
  · simp only [List.length_cons, List.length_nil] at h; omega
  rcases l with _ | ⟨d, l⟩
  · simp only [List.length_cons, List.length_nil] at h; omega
  rcases l with _ | ⟨e, l⟩
  · simp only [List.length_cons, List.length_nil] at h; omega
  rcases l with _ | ⟨f, l⟩
  · simp only [List.length_cons, List.length_nil] at h; omega
  rcases l with _ | ⟨x, l⟩
  · exact ⟨a, b, c, d, e, f, rfl⟩
  · simp only [List.length_cons] at h; omega

theorem stripHash_all_hex (l : List Char) (h : l.all isHexDigit = true) :
    stripHash l = l := by
  cases l with
  | nil => rfl
  | cons c rest =>
    have hc : isHexDigit c = true := by
      simp only [List.all_cons, Bool.and_eq_true] at h
      exact h.1
    have hcc : c ≠ '#' := by
      intro e
      subst e
      rw [show isHexDigit '#' = false from by decide] at hc
      cases hc
    simp [stripHash, hcc]

theorem matchesHexRGB_len (s : String) (h : matchesHexRGB s = true) :
    (stripHash s.data).length = 6 := by
  unfold matchesHexRGB at h
  cases hd : s.data with
  | nil => rw [hd] at h; cases h
  | cons c rest =>
    rw [hd] at h
    have h2 : (if c = '#' then rest.length == 6 && rest.all isHexDigit
        else (c :: rest).length == 6 && (c :: rest).all isHexDigit) =
        true := h
    by_cases hc : c = '#'
    · rw [if_pos hc] at h2
      simp only [Bool.and_eq_true, beq_iff_eq] at h2
      subst hc
      simp only [stripHash, if_pos rfl]
      rw [stripHash_all_hex rest h2.2]
      exact h2.1
    · rw [if_neg hc] at h2
      simp only [Bool.and_eq_true, beq_iff_eq] at h2
      simp only [stripHash, if_neg hc]
      exact h2.1

theorem hex_to_rgba_error_of_not_matches (s : String)
    (h : matchesHexRGB s = false) :
    hex_to_rgba s = .error UpsGuiError.invalidColorFormat := by
  unfold hex_to_rgba
  rw [if_pos (by rw [h]; decide)]

theorem hex_to_rgba_ok_shape (s : String) (h : matchesHexRGB s = true) :
    ∃ c0 c1 c2 c3 c4 c5,
      stripHash s.data = [c0, c1, c2, c3, c4, c5] ∧
      hex_to_rgba s = .ok ((hexPair c0 c1 : ℚ) / 255,
        (hexPair c2 c3 : ℚ) / 255, (hexPair c4 c5 : ℚ) / 255, 1) := by
  obtain ⟨c0, c1, c2, c3, c4, c5, he⟩ :=
    list_len6 (stripHash s.data) (matchesHexRGB_len s h)
  refine ⟨c0, c1, c2, c3, c4, c5, he, ?_⟩
  simp [hex_to_rgba, h, he]

/-- C7: hex_to_rgba accepts a string matching the modelled HEXRGB
pattern (an optional leading '#' plus exactly 6 hex digits), divides
each 8-bit channel by 255 with alpha exactly 1, and fails with
InvalidColorFormatError when the pattern does not match or the stripped
input is not exactly 6 characters; in particular "#FFFFFF" maps to
(1,1,1,1), "000000" to (0,0,0,1), and "#ZZZZZZ" and "#FFF" fail. -/
theorem hex_to_rgba_spec :
    hex_to_rgba "#FFFFFF" = .ok (1, 1, 1, 1) ∧
    hex_to_rgba "000000" = .ok (0, 0, 0, 1) ∧
    hex_to_rgba "#ZZZZZZ" = .error UpsGuiError.invalidColorFormat ∧
    hex_to_rgba "#FFF" = .error UpsGuiError.invalidColorFormat ∧
    (∀ s : String, matchesHexRGB s = false →
      hex_to_rgba s = .error UpsGuiError.invalidColorFormat) ∧
    (∀ s : String, (stripHash s.data).length ≠ 6 →
      hex_to_rgba s = .error UpsGuiError.invalidColorFormat) ∧
    (∀ s : String, matchesHexRGB s = true → ∃ c0 c1 c2 c3 c4 c5,
      stripHash s.data = [c0, c1, c2, c3, c4, c5] ∧
      hex_to_rgba s = .ok ((hexPair c0 c1 : ℚ) / 255,
        (hexPair c2 c3 : ℚ) / 255, (hexPair c4 c5 : ℚ) / 255, 1)) ∧
    (∀ (s : String) (q : ℚ × ℚ × ℚ × ℚ), hex_to_rgba s = .ok q →
      q.2.2.2 = 1) := by
  refine ⟨?_, ?_, ?_, ?_, hex_to_rgba_error_of_not_matches, ?_,
    hex_to_rgba_ok_shape, ?_⟩
  · simp +decide [hex_to_rgba, matchesHexRGB, stripHash, hexPair, hexVal]
  · simp +decide [hex_to_rgba, matchesHexRGB, stripHash, hexPair, hexVal]
  · simp +decide [hex_to_rgba, matchesHexRGB, stripHash, hexPair, hexVal]
  · simp +decide [hex_to_rgba, matchesHexRGB, stripHash, hexPair, hexVal]
  · intro s hlen
    by_cases hm : matchesHexRGB s = true
    · exact absurd (matchesHexRGB_len s hm) hlen
    · exact hex_to_rgba_error_of_not_matches s (by simpa using hm)
  · intro s q hq
    by_cases hm : matchesHexRGB s = true
    · obtain ⟨c0, c1, c2, c3, c4, c5, _, hok⟩ := hex_to_rgba_ok_shape s hm
      rw [hok] at hq
      injection hq with hinj
      rw [← hinj]
    · rw [hex_to_rgba_error_of_not_matches s (by simpa using hm)] at hq
      cases hq

/-- C7 witness: a string that fails the pattern is rejected with
InvalidColorFormatError. -/
theorem hex_to_rgba_spec_witness :
    matchesHexRGB "xyz" = false ∧
    hex_to_rgba "xyz" = .error UpsGuiError.invalidColorFormat :=
  ⟨by decide, hex_to_rgba_spec.2.2.2.2.1 "xyz" (by decide)⟩

theorem palette_all_matches :
    _colors.all (fun p => matchesHexRGB p.2) = true := by decide

theorem palette_all_rgbaOk :
    _colors.all (fun p => rgbaOkCheck (hex_to_rgba p.2)) = true := by
  simp +decide [_colors, rgbaOkCheck, hex_to_rgba, matchesHexRGB,
    stripHash, hexPair, hexVal]
  norm_num

/-- C8: color_name_to_hex and color_name_to_rgba succeed exactly on the
keys of the fixed palette and fail with UnknownColorError on every
other string, case variants of the keys included; a successful rgba
result has every component in [0, 1] with alpha exactly 1. -/
theorem resolve_palette_total (name : String) :
    ((∃ h, color_name_to_hex name = .ok h) ↔
      name ∈ _colors.map Prod.fst) ∧
    ((∃ q, color_name_to_rgba name = .ok q) ↔
      name ∈ _colors.map Prod.fst) ∧
    (name ∉ _colors.map Prod.fst →
      color_name_to_hex name = .error UpsGuiError.unknownColor ∧
      color_name_to_rgba name = .error UpsGuiError.unknownColor) ∧
    (∀ r gq bq a, color_name_to_rgba name = .ok (r, gq, bq, a) →
      0 ≤ r ∧ r ≤ 1 ∧ 0 ≤ gq ∧ gq ≤ 1 ∧ 0 ≤ bq ∧ bq ≤ 1 ∧ a = 1) := by
  cases hq : lookupA _colors name with
  | none =>
    have hnm : name ∉ _colors.map Prod.fst := by
      intro hm
      have hs := (lookupA_isSome_iff _colors name).mpr hm
      rw [hq] at hs
      cases hs
    refine ⟨?_, ?_, fun _ => ⟨?_, ?_⟩, ?_⟩
    · constructor
      · rintro ⟨h, hh⟩
        unfold color_name_to_hex at hh
        rw [hq] at hh
        cases hh
      · intro hm
        exact absurd hm hnm
    · constructor
      · rintro ⟨qq, hh⟩
        unfold color_name_to_rgba at hh
        rw [hq] at hh
        cases hh
      · intro hm
        exact absurd hm hnm
    · unfold color_name_to_hex
      rw [hq]
    · unfold color_name_to_rgba
      rw [hq]
    · intro r gq bq a hh
      unfold color_name_to_rgba at hh
      rw [hq] at hh
      cases hh
  | some hx =>
    have hmem : name ∈ _colors.map Prod.fst :=
      (lookupA_isSome_iff _colors name).mp (by rw [hq]; rfl)
    have hpm : matchesHexRGB hx = true := by
      have hall := palette_all_matches
      rw [List.all_eq_true] at hall
      exact hall (name, hx) (lookupA_mem _colors name hx hq)
    refine ⟨?_, ?_, fun hc => absurd hmem hc, ?_⟩
    · exact ⟨fun _ => hmem,
        fun _ => ⟨hx, by unfold color_name_to_hex; rw [hq]⟩⟩
    · refine ⟨fun _ => hmem, fun _ => ?_⟩
      obtain ⟨c0, c1, c2, c3, c4, c5, _, hh⟩ := hex_to_rgba_ok_shape hx hpm
      exact ⟨_, by unfold color_name_to_rgba; rw [hq]; exact hh⟩
    · intro r gq bq a hh
      unfold color_name_to_rgba at hh
      rw [hq] at hh
      have hh2 : hex_to_rgba hx = Except.ok (r, gq, bq, a) := hh
      have hchk : rgbaOkCheck (hex_to_rgba hx) = true := by
        have hall := palette_all_rgbaOk
        rw [List.all_eq_true] at hall
        exact hall (name, hx) (lookupA_mem _colors name hx hq)
      rw [hh2] at hchk
      simp only [rgbaOkCheck, Bool.and_eq_true, decide_eq_true_eq] at hchk
      obtain ⟨⟨⟨⟨⟨⟨h1, h2⟩, h3⟩, h4⟩, h5⟩, h6⟩, h7⟩ := hchk
      exact ⟨h1, h2, h3, h4, h5, h6, h7⟩

/-- C8 witness: the palette key "green" resolves; its case variant
"Green" is rejected with UnknownColorError. -/
theorem resolve_palette_total_witness :
    "green" ∈ _colors.map Prod.fst ∧
    (∃ q, color_name_to_rgba "green" = .ok q) ∧
    "Green" ∉ _colors.map Prod.fst ∧
    color_name_to_hex "Green" = .error UpsGuiError.unknownColor :=
  ⟨by decide, (resolve_palette_total "green").2.1.mpr (by decide),
   by decide, ((resolve_palette_total "Green").2.2.1 (by decide)).1⟩

/-- C9 counterexample: the default style document built by set_style
holds a rule for entry:selected that is bound to no region of the fixed
region-to-color table of the spec, so the document does not consist of
exactly one rule per table region and no other rule: it has 26 rules
against the 25 of the table. -/
theorem set_style_extra_rule_cex :
    entry_selected_rule ∈ set_style_css_list none ∧
    entry_selected_rule ∉ spec_style_doc ∧
    (set_style_css_list none).length = 26 ∧
    spec_style_doc.length = 25 := by
  refine ⟨?_, ?_, ?_, ?_⟩ <;> decide

/-- C9 amended: the default style document is deterministic (a fixed
list) and consists of exactly one palette-resolved rule per region of
the fixed table, in table order, plus exactly one additional
entry:selected rule (yellow background, white text) and nothing else;
a supplied css string instead becomes the single rule of the
document. -/
theorem set_style_default_doc :
    set_style_css_list none = spec_style_doc ++ [entry_selected_rule] ∧
    (∀ s : String, set_style_css_list (some s) = [s]) :=
  ⟨by decide, fun s => rfl⟩

end UPSgui
